import Mathlib

/-!
Shallow embedding of the capture-and-recording session manager
(`components/VideoRecorder.tsx`): stream acquisition (`startCapture`),
encoder setup (`startRecording`), resource release (`cleanupResources`),
stop paths (`stopRecording`, the `onended` hook, the `onstop` handler),
chunk accumulation (`ondataavailable`) and snapshot extraction
(`captureSnapshot`).  Browser effects (media acquisition results,
codec support, encoder construction, wall clock) are inputs in a
`CaptureEnv`; component refs and React state are fields of
`RecorderState`; invocations of release callbacks are logged in a
`released` ghost field so that exactly-once properties are statable.
-/

/- String.prototype.includes, used by the error-categorisation
heuristics: case-sensitive substring containment. -/

def leadMatch : List Char → List Char → Bool
  | [], _ => true
  | _ :: _, [] => false
  | a :: as, b :: bs => a == b && leadMatch as bs

def findSub (needle : List Char) : List Char → Bool
  | [] => needle.isEmpty
  | h :: t => leadMatch needle (h :: t) || findSub needle t

def strIncludes (hay needle : String) : Bool :=
  findSub needle.data hay.data

/-- ASCII apostrophe, kept out of string literals. -/
def apos : String := String.singleton (Char.ofNat 39)

/- types.ts -/

inductive RecorderStatus
  | IDLE
  | RECORDING
  | PAUSED
  | REVIEW
deriving DecidableEq

/-- A release callback pushed into `cleanupCallbackRef`.  The component
only ever registers the two track-stopping closures; the other
constructors exist so that statements about what is absent from the
registry are meaningful. -/
inductive ReleaseAction
  | stopDisplayTracks
  | stopMicTracks
  | closeAudioContext
  | disconnectNode (id : Nat)
deriving DecidableEq

/-- Result of `getDisplayMedia`: track ids. -/
structure DisplayStream where
  videoTracks : List Nat
  audioTracks : List Nat
deriving DecidableEq

/-- The final stream handed to the recorder: either the display stream
passed through unchanged, or the combined stream built from the display
video tracks plus the mixed audio destination track. -/
inductive MediaStream
  | display (ds : DisplayStream)
  | combined (ds : DisplayStream)
deriving DecidableEq

def MediaStream.videoTracks : MediaStream → List Nat
  | .display ds => ds.videoTracks
  | .combined ds => ds.videoTracks

structure MediaRecorderHandle where
  stream : MediaStream
  mime : String
  inactive : Bool
deriving DecidableEq

/-- The finished recording (`recordedData`): payload is the Blob built
from the accumulated chunks (bytes), with the selected MIME type. -/
structure Artifact where
  payload : List Nat
  mime : String
  duration : Nat
deriving DecidableEq

/-- Component state: React state plus refs, with ghost counters for
release-callback invocations (`released`), AudioContext constructions
(`ctxCreated`), `close()` calls (`ctxClosed`) and audio-node
constructions (`nodesCreated`). -/
structure RecorderState where
  status : RecorderStatus
  error : Option String
  registry : List ReleaseAction
  released : List ReleaseAction
  audioCtx : Bool
  ctxCreated : Nat
  ctxClosed : Nat
  nodesCreated : Nat
  timerActive : Bool
  preview : Option MediaStream
  endedHookSet : Bool
  recorder : Option MediaRecorderHandle
  chunks : List (List Nat)
  recorded : Option Artifact
  analysisRequested : Bool
  audioEnabled : Bool
  startTime : Nat
  duration : Nat
deriving DecidableEq

/-- Browser-provided outcomes for one `startCapture` run. -/
structure CaptureEnv where
  displayResult : Except String DisplayStream
  micResult : Except String Unit
  supported : List String
  recorderErr : Option String
  now : Nat

/- constants.ts -/

def SUPPORTED_MIME_TYPES : List String :=
  ["video/mp4; codecs=avc1,opus", "video/mp4",
   "video/webm; codecs=vp9,opus", "video/webm"]

/- The two curated error messages of the catch block in startCapture. -/

def policyBlockedMsg : String :=
  "Screen recording is disabled by the environment. Please ensure " ++
    apos ++ "display-capture" ++ apos ++
    " permission is allowed in the app configuration."

def captureDeniedMsg : String :=
  "Permission denied. You must allow screen access to record."

/-- cleanupResources (part_001 lines 199-220): clear the timer, invoke
every registered release callback and clear the registry, close the
audio context if one is open, detach the preview. -/
def cleanupResources (s : RecorderState) : RecorderState :=
  let s1 := { s with timerActive := false }
  let s2 := { s1 with released := s1.released ++ s1.registry, registry := [] }
  let s3 := if s2.audioCtx
    then { s2 with audioCtx := false, ctxClosed := s2.ctxClosed + 1 }
    else s2
  { s3 with preview := none }

/-- The message-content heuristics of the catch block in startCapture
(lines 117-123).  Note both `includes` checks are case-sensitive. -/
def classifyError (msg : String) : String :=
  if strIncludes msg "display-capture" || strIncludes msg "permissions policy"
    then policyBlockedMsg
  else if strIncludes msg "Permission denied"
    then captureDeniedMsg
  else msg

/-- The catch block of startCapture (lines 110-124): cleanupResources,
then surface the categorised message (empty message falls back to the
generic one, modelling `(err as Error).message || ...`). -/
def handleCaptureError (msg : String) (s : RecorderState) : RecorderState :=
  let s := cleanupResources s
  let m := if msg = "" then "Failed to start screen capture." else msg
  { s with error := some (classifyError m) }

/-- MIME selection (lines 128-142): prefer mp4+avc1, then plain mp4,
else the first supported entry of SUPPORTED_MIME_TYPES, else webm. -/
def selectMime (sup : List String) : String :=
  if sup.contains "video/mp4; codecs=avc1,opus" then
    "video/mp4; codecs=avc1,opus"
  else if sup.contains "video/mp4" then "video/mp4"
  else
    match SUPPORTED_MIME_TYPES.find? (fun t => sup.contains t) with
    | some t => t
    | none => "video/webm"

/-- startRecording (lines 127-197).  Constructing the MediaRecorder may
throw (`env.recorderErr`); on failure set the error then
cleanupResources; on success install the recorder, reset the chunk
buffer, record the start time, enter RECORDING and start the ticker. -/
def startRecording (env : CaptureEnv) (stream : MediaStream)
    (s : RecorderState) : RecorderState :=
  let mime := selectMime env.supported
  match env.recorderErr with
  | some msg =>
      cleanupResources
        { s with error := some ("Failed to create MediaRecorder: " ++ msg) }
  | none =>
      { s with
          recorder := some { stream := stream, mime := mime, inactive := false },
          chunks := [],
          startTime := env.now,
          status := RecorderStatus.RECORDING,
          duration := 0,
          timerActive := true }

/-- startCapture (lines 32-125).  Reset error and registry; acquire the
display stream (fatal on failure); register its track-stopper; if the
microphone is enabled, try to acquire it (non-fatal on failure) and
build the audio mix (AudioContext, destination node, optional
system-audio source node, microphone source node, combined stream);
set the preview; attach the `onended` hook to the first video track
(a JS TypeError if there is none, caught by the outer catch); then
startRecording. -/
def startCapture (env : CaptureEnv) (s : RecorderState) : RecorderState :=
  let s := { s with error := none, registry := [] }
  match env.displayResult with
  | .error msg => handleCaptureError msg s
  | .ok ds =>
    let s := { s with registry := s.registry ++ [ReleaseAction.stopDisplayTracks] }
    let step :=
      if s.audioEnabled then
        match env.micResult with
        | .ok _ =>
          let s := { s with registry := s.registry ++ [ReleaseAction.stopMicTracks] }
          let s := { s with audioCtx := true, ctxCreated := s.ctxCreated + 1 }
          let sysNodes := if 0 < ds.audioTracks.length then 1 else 0
          let s := { s with nodesCreated := s.nodesCreated + 1 + sysNodes + 1 }
          (s, MediaStream.combined ds)
        | .error _ => (s, MediaStream.display ds)
      else (s, MediaStream.display ds)
    let s := { step.1 with preview := some step.2 }
    match step.2.videoTracks with
    | [] => handleCaptureError "Cannot set properties of undefined" s
    | _ :: _ =>
      let s := { s with endedHookSet := true }
      startRecording env step.2 s

/- Snapshot extraction (captureSnapshot, lines 228-274).  The browser
inputs are a `SnapEnv`: whether the preview element is bound to this
exact stream, the instant (ms) at which metadata-loaded + play would
resolve for a temporary element (none = never, e.g. the stream already
ended), whether the 2d context is available, whether drawImage
succeeds, and the frame payload the canvas would serialise.  The model
returns, besides the Option result of the try/catch, whether a
temporary video element was created, whether it was detached
(pause / srcObject = null / remove), and the elapsed wait in ms. -/

/-- The `setTimeout(reject, 1000)` bound of the readiness wait. -/
def SNAP_TIMEOUT : Nat := 1000

structure SnapEnv where
  previewMatches : Bool
  readyAt : Option Nat
  ctxAvailable : Bool
  drawOk : Bool
  videoWidth : Nat
  videoHeight : Nat
  frameData : String
deriving DecidableEq

structure SnapResult where
  result : Option String
  tempCreated : Bool
  tempDetached : Bool
  elapsed : Nat
deriving DecidableEq

/-- captureSnapshot (lines 228-274).  If the preview is bound to this
stream, draw from it directly; otherwise create a temporary video
element and await readiness against the 1 s timeout.  A missing 2d
context returns null directly (line 257); a readiness rejection or a
drawImage throw lands in the catch, which returns null.  The temporary
element is detached only on the success path (lines 262-266). -/
def captureSnapshot (e : SnapEnv) : SnapResult :=
  if e.previewMatches then
    if e.ctxAvailable = false then
      { result := none, tempCreated := false, tempDetached := false, elapsed := 0 }
    else if e.drawOk = false then
      { result := none, tempCreated := false, tempDetached := false, elapsed := 0 }
    else
      { result := some e.frameData, tempCreated := false,
        tempDetached := false, elapsed := 0 }
  else
    match e.readyAt with
    | some t =>
      if t < SNAP_TIMEOUT then
        if e.ctxAvailable = false then
          { result := none, tempCreated := true, tempDetached := false, elapsed := t }
        else if e.drawOk = false then
          { result := none, tempCreated := true, tempDetached := false, elapsed := t }
        else
          { result := some e.frameData, tempCreated := true,
            tempDetached := true, elapsed := t }
      else
        { result := none, tempCreated := true, tempDetached := false,
          elapsed := SNAP_TIMEOUT }
    | none =>
      { result := none, tempCreated := true, tempDetached := false,
        elapsed := SNAP_TIMEOUT }

/-- The `ondataavailable` handler (lines 152-156): push the chunk only
when its size is positive. -/
def onDataAvailable (s : RecorderState) (data : List Nat) : RecorderState :=
  if 0 < data.length then { s with chunks := s.chunks ++ [data] } else s

/-- A sequence of `ondataavailable` events in emission order. -/
def feedChunks (s : RecorderState) (emitted : List (List Nat)) : RecorderState :=
  emitted.foldl onDataAvailable s

/-- The `onstop` handler (lines 158-182), with the recorder handle the
closure captured: build the Blob from the accumulated chunks, compute
the duration, take a snapshot of the still-live stream, store the
artifact, enter REVIEW, cleanupResources, and request analysis only if
a snapshot was obtained. -/
def handleStop (snap : SnapEnv) (now : Nat) (r : MediaRecorderHandle)
    (s : RecorderState) : RecorderState :=
  let dur := (now - s.startTime) / 1000
  let payload := s.chunks.flatten
  let snapRes := captureSnapshot snap
  let art : Artifact := { payload := payload, mime := r.mime, duration := dur }
  let s := { s with recorded := some art }
  let s := { s with status := RecorderStatus.REVIEW }
  let s := cleanupResources s
  if snapRes.result.isSome then { s with analysisRequested := true } else s

/-- stopRecording (lines 222-226): if a recorder exists and is not
inactive, stop it — the recorder becomes inactive and its `onstop`
handler runs; otherwise do nothing. -/
def stopRecording (snap : SnapEnv) (now : Nat) (s : RecorderState) : RecorderState :=
  match s.recorder with
  | some r =>
    if r.inactive then s
    else handleStop snap now r { s with recorder := some { r with inactive := true } }
  | none => s

/-- The external-termination hook (lines 102-105): when set, the
`onended` event of the primary video track calls stopRecording — the
very routine the Stop button invokes. -/
def onTrackEnded (snap : SnapEnv) (now : Nat) (s : RecorderState) : RecorderState :=
  if s.endedHookSet then stopRecording snap now s else s

/-- Component state at mount / after reset: IDLE, nothing registered,
nothing recorded. -/
def initState (audioEnabled : Bool) : RecorderState :=
  { status := RecorderStatus.IDLE, error := none, registry := [],
    released := [], audioCtx := false, ctxCreated := 0, ctxClosed := 0,
    nodesCreated := 0, timerActive := false, preview := none,
    endedHookSet := false, recorder := none, chunks := [],
    recorded := none, analysisRequested := false,
    audioEnabled := audioEnabled, startTime := 0, duration := 0 }

/-- The release callbacks startCapture registers after a successful
display acquisition, as a function of the microphone setting and the
microphone outcome. -/
def micRegs (audioEnabled : Bool) (mic : Except String Unit) : List ReleaseAction :=
  if audioEnabled then
    match mic with
    | .ok _ => [ReleaseAction.stopDisplayTracks, ReleaseAction.stopMicTracks]
    | .error _ => [ReleaseAction.stopDisplayTracks]
  else [ReleaseAction.stopDisplayTracks]

/- Concrete inputs used by witnesses and counterexamples. -/

def ds0 : DisplayStream := { videoTracks := [1], audioTracks := [2] }

def snap0 : SnapEnv :=
  { previewMatches := true, readyAt := none, ctxAvailable := true,
    drawOk := true, videoWidth := 1920, videoHeight := 1080, frameData := "f" }

def envOk : CaptureEnv :=
  { displayResult := Except.ok ds0, micResult := Except.ok (),
    supported := ["video/webm"], recorderErr := none, now := 0 }

def envMicFail : CaptureEnv :=
  { displayResult := Except.ok ds0, micResult := Except.error "NotAllowedError",
    supported := ["video/webm"], recorderErr := none, now := 0 }

def envDisplayFail : CaptureEnv :=
  { displayResult := Except.error "permission denied",
    micResult := Except.error "x", supported := [], recorderErr := none, now := 0 }

def envDenied : CaptureEnv :=
  { displayResult := Except.error "Permission denied",
    micResult := Except.error "x", supported := [], recorderErr := none, now := 0 }

def envRecorderFail : CaptureEnv :=
  { displayResult := Except.ok ds0, micResult := Except.ok (),
    supported := [], recorderErr := some "boom", now := 0 }

def snapLeakEnv : SnapEnv :=
  { previewMatches := false, readyAt := none, ctxAvailable := true,
    drawOk := true, videoWidth := 1280, videoHeight := 720, frameData := "d" }

def r10 : MediaRecorderHandle :=
  { stream := MediaStream.display ds0, mime := "video/webm", inactive := false }

def s10 : RecorderState :=
  { (initState true) with
    recorder := some r10,
    registry := [ReleaseAction.stopDisplayTracks],
    status := RecorderStatus.RECORDING }

/- Helper lemmas about the release routine and the stop handler. -/

theorem cleanupResources_registry (s : RecorderState) :
    (cleanupResources s).registry = [] := by
  unfold cleanupResources
  dsimp only
  split <;> rfl

theorem cleanupResources_released (s : RecorderState) :
    (cleanupResources s).released = s.released ++ s.registry := by
  unfold cleanupResources
  dsimp only
  split <;> rfl

theorem cleanupResources_audioCtx (s : RecorderState) :
    (cleanupResources s).audioCtx = false := by
  unfold cleanupResources
  dsimp only
  split <;> simp_all

theorem cleanupResources_preview (s : RecorderState) :
    (cleanupResources s).preview = none := rfl

theorem cleanupResources_status (s : RecorderState) :
    (cleanupResources s).status = s.status := by
  unfold cleanupResources
  dsimp only
  split <;> rfl

theorem cleanupResources_error (s : RecorderState) :
    (cleanupResources s).error = s.error := by
  unfold cleanupResources
  dsimp only
  split <;> rfl

theorem cleanupResources_ctxCreated (s : RecorderState) :
    (cleanupResources s).ctxCreated = s.ctxCreated := by
  unfold cleanupResources
  dsimp only
  split <;> rfl

theorem cleanupResources_idem (s : RecorderState) :
    cleanupResources (cleanupResources s) = cleanupResources s := by
  unfold cleanupResources
  dsimp only
  split <;> simp

theorem handleStop_registry (snap : SnapEnv) (now : Nat)
    (r : MediaRecorderHandle) (s : RecorderState) :
    (handleStop snap now r s).registry = [] := by
  unfold handleStop
  dsimp only
  split
  · exact cleanupResources_registry _
  · exact cleanupResources_registry _

theorem handleStop_released (snap : SnapEnv) (now : Nat)
    (r : MediaRecorderHandle) (s : RecorderState) :
    (handleStop snap now r s).released = s.released ++ s.registry := by
  unfold handleStop
  dsimp only
  split
  · exact cleanupResources_released _
  · exact cleanupResources_released _

theorem handleStop_status (snap : SnapEnv) (now : Nat)
    (r : MediaRecorderHandle) (s : RecorderState) :
    (handleStop snap now r s).status = RecorderStatus.REVIEW := by
  unfold handleStop
  dsimp only
  split
  · exact cleanupResources_status _
  · exact cleanupResources_status _

theorem handleCaptureError_registry (msg : String) (s : RecorderState) :
    (handleCaptureError msg s).registry = [] := cleanupResources_registry s

theorem handleCaptureError_released (msg : String) (s : RecorderState) :
    (handleCaptureError msg s).released = s.released ++ s.registry :=
  cleanupResources_released s

theorem handleCaptureError_audioCtx (msg : String) (s : RecorderState) :
    (handleCaptureError msg s).audioCtx = false := cleanupResources_audioCtx s

theorem handleCaptureError_preview (msg : String) (s : RecorderState) :
    (handleCaptureError msg s).preview = none := rfl

theorem handleCaptureError_status (msg : String) (s : RecorderState) :
    (handleCaptureError msg s).status = s.status := cleanupResources_status s

theorem handleCaptureError_isSome (msg : String) (s : RecorderState) :
    ((handleCaptureError msg s).error).isSome = true := rfl

theorem startCapture_displayFail (env : CaptureEnv) (s : RecorderState)
    (msg : String) (h : env.displayResult = Except.error msg) :
    startCapture env s =
      handleCaptureError msg { s with error := none, registry := [] } := by
  obtain ⟨dr, mic, sup, re, nw⟩ := env
  dsimp only at h
  subst h
  rfl

theorem stopRecording_active (snap : SnapEnv) (now : Nat) (s : RecorderState)
    (r : MediaRecorderHandle) (h : s.recorder = some r) (hi : r.inactive = false) :
    stopRecording snap now s
      = handleStop snap now r
          { s with recorder := some { r with inactive := true } } := by
  unfold stopRecording
  rw [h]
  dsimp only
  rw [hi]
  simp

theorem startCapture_recorderFail (env : CaptureEnv) (s : RecorderState)
    (ds : DisplayStream) (m : String)
    (h1 : env.displayResult = Except.ok ds) (h2 : env.recorderErr = some m) :
    (startCapture env s).registry = [] ∧
    (startCapture env s).audioCtx = false ∧
    (startCapture env s).preview = none ∧
    (startCapture env s).status = s.status ∧
    ((startCapture env s).error).isSome = true ∧
    (startCapture env s).released
      = s.released ++ micRegs s.audioEnabled env.micResult := by
  obtain ⟨dr, mic, sup, re, nw⟩ := env
  dsimp only at h1 h2 ⊢
  subst h1
  subst h2
  cases hA : s.audioEnabled <;> cases mic <;> cases hV : ds.videoTracks <;>
      cases hC : s.audioCtx <;>
    simp_all [startCapture, startRecording, handleCaptureError, cleanupResources,
      classifyError, micRegs, MediaStream.videoTracks]

/-- C1: on every termination path of a capture session — user stop and
external revocation (both of which run the `onstop` handler), display
acquisition failure, and encoder-construction failure — the release
routine leaves the release-callback registry empty; every registered
release action is invoked exactly once (the invocation log is extended
by exactly the registry contents, so per-action invocation counts grow
by the registration counts); and running `cleanupResources` again after
it has emptied the registry is an idempotent no-op. -/
theorem cleanupResources_release_contract (s : RecorderState) :
    (cleanupResources s).registry = [] ∧
    (cleanupResources s).released = s.released ++ s.registry ∧
    (∀ a : ReleaseAction,
      ((cleanupResources s).released).count a
        = s.released.count a + s.registry.count a) ∧
    cleanupResources (cleanupResources s) = cleanupResources s ∧
    (∀ (env : CaptureEnv) (msg : String),
      env.displayResult = Except.error msg →
      (startCapture env s).registry = [] ∧
      (startCapture env s).released = s.released) ∧
    (∀ (env : CaptureEnv) (ds : DisplayStream) (m : String),
      env.displayResult = Except.ok ds → env.recorderErr = some m →
      (startCapture env s).registry = []) ∧
    (∀ (snap : SnapEnv) (now : Nat) (r : MediaRecorderHandle),
      s.recorder = some r → r.inactive = false →
      (stopRecording snap now s).registry = [] ∧
      (stopRecording snap now s).released = s.released ++ s.registry) ∧
    (∀ (snap : SnapEnv) (now : Nat) (r : MediaRecorderHandle),
      s.endedHookSet = true → s.recorder = some r → r.inactive = false →
      (onTrackEnded snap now s).registry = []) := by
  refine ⟨cleanupResources_registry s, cleanupResources_released s, ?_,
    cleanupResources_idem s, ?_, ?_, ?_, ?_⟩
  · intro a
    rw [cleanupResources_released]
    exact List.count_append a s.released s.registry
  · intro env msg h
    rw [startCapture_displayFail env s msg h]
    refine ⟨handleCaptureError_registry _ _, ?_⟩
    rw [handleCaptureError_released]
    simp
  · intro env ds m h1 h2
    exact (startCapture_recorderFail env s ds m h1 h2).1
  · intro snap now r h hi
    rw [stopRecording_active snap now s r h hi]
    exact ⟨handleStop_registry _ _ _ _, handleStop_released _ _ _ _⟩
  · intro snap now r hh h hi
    unfold onTrackEnded
    rw [hh]
    simp only [if_true]
    rw [stopRecording_active snap now s r h hi]
    exact handleStop_registry _ _ _ _

/-- C1 witness: the contract applied to a concrete RECORDING state with
one registered release action and an active recorder. -/
theorem cleanupResources_release_contract_witness :
    (stopRecording snap0 0 s10).registry = [] ∧
    (stopRecording snap0 0 s10).released = s10.released ++ s10.registry :=
  (cleanupResources_release_contract s10).2.2.2.2.2.2.1 snap0 0 r10 rfl rfl

/-- C2: on every fatal failure of a capture attempt — display
acquisition fails, or the display stream is acquired but the
MediaRecorder constructor throws — the resulting state has run the full
release routine (registry empty, audio context closed, preview
detached, every disposer registered so far invoked, extending the
release log), the session status is still IDLE, and an error is
surfaced. -/
theorem startCapture_fatal_failure_clean (env : CaptureEnv) (s : RecorderState)
    (hIdle : s.status = RecorderStatus.IDLE)
    (hFatal : (∃ msg, env.displayResult = Except.error msg) ∨
      ((∃ ds, env.displayResult = Except.ok ds) ∧ env.recorderErr.isSome = true)) :
    (startCapture env s).status = RecorderStatus.IDLE ∧
    (startCapture env s).registry = [] ∧
    (startCapture env s).audioCtx = false ∧
    (startCapture env s).preview = none ∧
    ((startCapture env s).error).isSome = true ∧
    ((startCapture env s).released = s.released ∨
      (startCapture env s).released
        = s.released ++ micRegs s.audioEnabled env.micResult) := by
  rcases hFatal with ⟨msg, h⟩ | ⟨⟨ds, h1⟩, h2⟩
  · rw [startCapture_displayFail env s msg h]
    refine ⟨?_, handleCaptureError_registry _ _, handleCaptureError_audioCtx _ _,
      handleCaptureError_preview _ _, handleCaptureError_isSome _ _, Or.inl ?_⟩
    · rw [handleCaptureError_status]
      exact hIdle
    · rw [handleCaptureError_released]
      simp
  · obtain ⟨m, hm⟩ := Option.isSome_iff_exists.mp h2
    obtain ⟨hr, ha, hp, hs, he, hrel⟩ := startCapture_recorderFail env s ds m h1 hm
    exact ⟨hs.trans hIdle, hr, ha, hp, he, Or.inr hrel⟩

/-- C2 witness: encoder construction fails after a successful display
acquisition from the fresh IDLE state. -/
theorem startCapture_fatal_failure_clean_witness :
    (startCapture envRecorderFail (initState true)).status = RecorderStatus.IDLE ∧
    (startCapture envRecorderFail (initState true)).registry = [] ∧
    (startCapture envRecorderFail (initState true)).audioCtx = false ∧
    (startCapture envRecorderFail (initState true)).preview = none ∧
    ((startCapture envRecorderFail (initState true)).error).isSome = true ∧
    ((startCapture envRecorderFail (initState true)).released
        = (initState true).released ∨
      (startCapture envRecorderFail (initState true)).released
        = (initState true).released
            ++ micRegs (initState true).audioEnabled envRecorderFail.micResult) :=
  startCapture_fatal_failure_clean envRecorderFail (initState true) rfl
    (Or.inr ⟨⟨ds0, rfl⟩, rfl⟩)

/-- The final stream startCapture hands to the recorder, as a function
of the microphone setting and outcome. -/
def finalStreamOf (audioEnabled : Bool) (mic : Except String Unit)
    (ds : DisplayStream) : MediaStream :=
  if audioEnabled then
    match mic with
    | .ok _ => MediaStream.combined ds
    | .error _ => MediaStream.display ds
  else MediaStream.display ds

theorem startCapture_success (env : CaptureEnv) (s : RecorderState)
    (ds : DisplayStream) (a : Nat) (l : List Nat)
    (h1 : env.displayResult = Except.ok ds)
    (hV : ds.videoTracks = a :: l)
    (h2 : env.recorderErr = none) :
    (startCapture env s).status = RecorderStatus.RECORDING ∧
    (startCapture env s).error = none ∧
    (startCapture env s).registry = micRegs s.audioEnabled env.micResult ∧
    (startCapture env s).released = s.released ∧
    (startCapture env s).endedHookSet = true ∧
    (startCapture env s).chunks = [] ∧
    (startCapture env s).recorder = some
      { stream := finalStreamOf s.audioEnabled env.micResult ds,
        mime := selectMime env.supported, inactive := false } := by
  obtain ⟨dr, mic, sup, re, nw⟩ := env
  dsimp only at h1 h2 ⊢
  subst h1
  subst h2
  cases hA : s.audioEnabled <;> cases mic <;>
    simp_all [startCapture, startRecording, micRegs, finalStreamOf,
      MediaStream.videoTracks, hV]

theorem cleanupResources_recorder (s : RecorderState) :
    (cleanupResources s).recorder = s.recorder := by
  unfold cleanupResources
  dsimp only
  split <;> rfl

theorem handleStop_recorder (snap : SnapEnv) (now : Nat)
    (r : MediaRecorderHandle) (s : RecorderState) :
    (handleStop snap now r s).recorder = s.recorder := by
  unfold handleStop
  dsimp only
  split
  · exact cleanupResources_recorder _
  · exact cleanupResources_recorder _

theorem stopRecording_inactive (snap : SnapEnv) (now : Nat) (s : RecorderState)
    (r : MediaRecorderHandle) (h : s.recorder = some r) (hi : r.inactive = true) :
    stopRecording snap now s = s := by
  unfold stopRecording
  rw [h]
  simp [hi]

/-- C3: after a successful capture start, the external-termination hook
is installed and firing it (the primary video track ending while
RECORDING) is literally the same routine as the user pressing Stop: the
session transitions to REVIEW on its own, the registry empties, each
registered release action is invoked exactly once (the release log
equals the duplicate-free registry), and a further stop request after
the revocation is a no-op. -/
theorem external_revocation_matches_user_stop (env : CaptureEnv) (s : RecorderState)
    (ds : DisplayStream) (a : Nat) (l : List Nat) (snap : SnapEnv) (now : Nat)
    (hRel : s.released = [])
    (h1 : env.displayResult = Except.ok ds)
    (hV : ds.videoTracks = a :: l)
    (h2 : env.recorderErr = none) :
    (startCapture env s).status = RecorderStatus.RECORDING ∧
    onTrackEnded snap now (startCapture env s)
      = stopRecording snap now (startCapture env s) ∧
    (onTrackEnded snap now (startCapture env s)).status = RecorderStatus.REVIEW ∧
    (onTrackEnded snap now (startCapture env s)).registry = [] ∧
    (onTrackEnded snap now (startCapture env s)).released
      = (startCapture env s).registry ∧
    ((startCapture env s).registry).Nodup ∧
    stopRecording snap now (onTrackEnded snap now (startCapture env s))
      = onTrackEnded snap now (startCapture env s) := by
  obtain ⟨hst, herr, hreg, hrel2, hhook, hch, hrec⟩ :=
    startCapture_success env s ds a l h1 hV h2
  have hOn : onTrackEnded snap now (startCapture env s)
      = stopRecording snap now (startCapture env s) := by
    unfold onTrackEnded
    rw [hhook]
    simp
  have hStop := stopRecording_active snap now (startCapture env s) _ hrec rfl
  refine ⟨hst, hOn, ?_, ?_, ?_, ?_, ?_⟩
  · rw [hOn, hStop]
    exact handleStop_status _ _ _ _
  · rw [hOn, hStop]
    exact handleStop_registry _ _ _ _
  · rw [hOn, hStop, handleStop_released]
    simp [hrel2, hRel, hreg]
  · rw [hreg]
    cases hA : s.audioEnabled <;> cases hM : env.micResult <;>
      simp [micRegs]
  · rw [hOn, hStop]
    exact stopRecording_inactive snap now _
      { stream := finalStreamOf s.audioEnabled env.micResult ds,
        mime := selectMime env.supported, inactive := true }
      (by rw [handleStop_recorder]) rfl

/-- C3 witness: a concrete successful run from the fresh IDLE state,
terminated by external track revocation. -/
theorem external_revocation_matches_user_stop_witness :
    (startCapture envOk (initState true)).status = RecorderStatus.RECORDING ∧
    onTrackEnded snap0 2000 (startCapture envOk (initState true))
      = stopRecording snap0 2000 (startCapture envOk (initState true)) ∧
    (onTrackEnded snap0 2000 (startCapture envOk (initState true))).status
      = RecorderStatus.REVIEW ∧
    (onTrackEnded snap0 2000 (startCapture envOk (initState true))).registry = [] ∧
    (onTrackEnded snap0 2000 (startCapture envOk (initState true))).released
      = (startCapture envOk (initState true)).registry ∧
    ((startCapture envOk (initState true)).registry).Nodup ∧
    stopRecording snap0 2000
        (onTrackEnded snap0 2000 (startCapture envOk (initState true)))
      = onTrackEnded snap0 2000 (startCapture envOk (initState true)) :=
  external_revocation_matches_user_stop envOk (initState true) ds0 1 [] snap0 2000
    rfl rfl rfl rfl

theorem cleanupResources_ctxClosed_open (s : RecorderState) (h : s.audioCtx = true) :
    (cleanupResources s).ctxClosed = s.ctxClosed + 1 := by
  unfold cleanupResources
  dsimp only
  simp [h]

/-- C4 counterexample: in a run that builds the audio mix (display and
microphone both acquired), an audio-processing context is created
(`ctxCreated = 1`) and three audio nodes are created, yet the
release-callback registry holds exactly the two track-stop callbacks:
no release action for the audio context (nor for any node) was
registered at creation time. -/
theorem audio_mix_context_not_in_registry :
    (startCapture envOk (initState true)).ctxCreated = 1 ∧
    (startCapture envOk (initState true)).nodesCreated = 3 ∧
    (startCapture envOk (initState true)).registry
      = [ReleaseAction.stopDisplayTracks, ReleaseAction.stopMicTracks] ∧
    ReleaseAction.closeAudioContext ∉ (startCapture envOk (initState true)).registry := by
  refine ⟨by decide, by decide, by decide, by decide⟩

/-- C4 (amended): while building the audio mix, only the stream-track
disposers (display, microphone) are registered with the
release-callback registry; the audio-processing context is not
registered there but is tracked in a dedicated reference which the
release routine closes exactly once; source and destination nodes are
not individually registered. -/
theorem audio_mix_resource_tracking (env : CaptureEnv) (s : RecorderState)
    (ds : DisplayStream) (a : Nat) (l : List Nat)
    (hDisp : env.displayResult = Except.ok ds)
    (hV : ds.videoTracks = a :: l)
    (hRec : env.recorderErr = none)
    (hAud : s.audioEnabled = true)
    (hMic : env.micResult = Except.ok ()) :
    (startCapture env s).registry
      = [ReleaseAction.stopDisplayTracks, ReleaseAction.stopMicTracks] ∧
    (startCapture env s).audioCtx = true ∧
    (startCapture env s).ctxCreated = s.ctxCreated + 1 ∧
    (cleanupResources (startCapture env s)).audioCtx = false ∧
    (cleanupResources (startCapture env s)).ctxClosed
      = (startCapture env s).ctxClosed + 1 := by
  obtain ⟨dr, mic, sup, re, nw⟩ := env
  dsimp only at hDisp hRec hMic ⊢
  subst hDisp
  subst hRec
  subst hMic
  have hac : (startCapture
      { displayResult := Except.ok ds, micResult := Except.ok (),
        supported := sup, recorderErr := none, now := nw } s).audioCtx = true := by
    simp [startCapture, startRecording, hAud, hV, MediaStream.videoTracks]
  refine ⟨?_, hac, ?_, cleanupResources_audioCtx _, cleanupResources_ctxClosed_open _ hac⟩
  · simp [startCapture, startRecording, hAud, hV, MediaStream.videoTracks]
  · simp [startCapture, startRecording, hAud, hV, MediaStream.videoTracks]

/-- C4 witness: the amended tracking property at a concrete mixing run. -/
theorem audio_mix_resource_tracking_witness :
    (startCapture envOk (initState true)).registry
      = [ReleaseAction.stopDisplayTracks, ReleaseAction.stopMicTracks] ∧
    (startCapture envOk (initState true)).audioCtx = true ∧
    (startCapture envOk (initState true)).ctxCreated = (initState true).ctxCreated + 1 ∧
    (cleanupResources (startCapture envOk (initState true))).audioCtx = false ∧
    (cleanupResources (startCapture envOk (initState true))).ctxClosed
      = (startCapture envOk (initState true)).ctxClosed + 1 :=
  audio_mix_resource_tracking envOk (initState true) ds0 1 [] rfl rfl rfl rfl rfl

/-- C5: when the display stream is acquired but microphone acquisition
fails, the failure is non-fatal: no user-facing error is set, the
session reaches RECORDING, the recorder receives only the display
stream, and no audio-processing context is created. -/
theorem mic_failure_nonfatal (env : CaptureEnv) (s : RecorderState)
    (ds : DisplayStream) (a : Nat) (l : List Nat) (m : String)
    (hDisp : env.displayResult = Except.ok ds)
    (hV : ds.videoTracks = a :: l)
    (hRec : env.recorderErr = none)
    (hAud : s.audioEnabled = true)
    (hMic : env.micResult = Except.error m) :
    (startCapture env s).status = RecorderStatus.RECORDING ∧
    (startCapture env s).error = none ∧
    (startCapture env s).recorder = some
      { stream := MediaStream.display ds, mime := selectMime env.supported,
        inactive := false } ∧
    (startCapture env s).ctxCreated = s.ctxCreated := by
  obtain ⟨dr, mic, sup, re, nw⟩ := env
  dsimp only at hDisp hRec hMic ⊢
  subst hDisp
  subst hRec
  subst hMic
  simp [startCapture, startRecording, hAud, hV, MediaStream.videoTracks]

/-- C5 witness: microphone denial on an otherwise successful run. -/
theorem mic_failure_nonfatal_witness :
    (startCapture envMicFail (initState true)).status = RecorderStatus.RECORDING ∧
    (startCapture envMicFail (initState true)).error = none ∧
    (startCapture envMicFail (initState true)).recorder = some
      { stream := MediaStream.display ds0,
        mime := selectMime envMicFail.supported, inactive := false } ∧
    (startCapture envMicFail (initState true)).ctxCreated
      = (initState true).ctxCreated :=
  mic_failure_nonfatal envMicFail (initState true) ds0 1 [] "NotAllowedError"
    rfl rfl rfl rfl rfl

theorem startCapture_noMix_counters (env : CaptureEnv) (s : RecorderState)
    (h : s.audioEnabled = false ∨ ∃ m, env.micResult = Except.error m) :
    (startCapture env s).ctxCreated = s.ctxCreated ∧
    (startCapture env s).nodesCreated = s.nodesCreated := by
  obtain ⟨dr, mic, sup, re, nw⟩ := env
  dsimp only at h ⊢
  rcases h with hA | ⟨m, hM⟩
  · cases dr with
    | error msg =>
        cases hC : s.audioCtx <;>
          simp_all [startCapture, handleCaptureError, cleanupResources, classifyError]
    | ok ds =>
        cases re <;> cases hV : ds.videoTracks <;> cases hC : s.audioCtx <;>
          simp_all [startCapture, startRecording, handleCaptureError,
            cleanupResources, classifyError, MediaStream.videoTracks]
  · subst hM
    cases dr with
    | error msg =>
        cases hC : s.audioCtx <;>
          simp_all [startCapture, handleCaptureError, cleanupResources, classifyError]
    | ok ds =>
        cases re <;> cases hV : ds.videoTracks <;> cases hC : s.audioCtx <;>
          cases hA : s.audioEnabled <;>
          simp_all [startCapture, startRecording, handleCaptureError,
            cleanupResources, classifyError, MediaStream.videoTracks]

theorem startCapture_noMix_stream (env : CaptureEnv) (s : RecorderState)
    (ds : DisplayStream) (a : Nat) (l : List Nat)
    (h : s.audioEnabled = false ∨ ∃ m, env.micResult = Except.error m)
    (h1 : env.displayResult = Except.ok ds)
    (hV : ds.videoTracks = a :: l)
    (h2 : env.recorderErr = none) :
    (startCapture env s).recorder = some
      { stream := MediaStream.display ds, mime := selectMime env.supported,
        inactive := false } := by
  have hrec := (startCapture_success env s ds a l h1 hV h2).2.2.2.2.2.2
  rcases h with hA | ⟨m, hM⟩ <;> simp_all [finalStreamOf]

/-- C8: when no optional audio source is to be mixed (microphone
disabled, or microphone acquisition failed), the run never creates an
audio-processing context or any audio node — on any display outcome —
and when capture succeeds the recorder receives the display stream
passed through unchanged. -/
theorem no_audio_source_identity_passthrough (env : CaptureEnv) (s : RecorderState)
    (h : s.audioEnabled = false ∨ ∃ m, env.micResult = Except.error m) :
    (startCapture env s).ctxCreated = s.ctxCreated ∧
    (startCapture env s).nodesCreated = s.nodesCreated ∧
    (∀ (ds : DisplayStream) (a : Nat) (l : List Nat),
      env.displayResult = Except.ok ds → ds.videoTracks = a :: l →
      env.recorderErr = none →
      (startCapture env s).recorder = some
        { stream := MediaStream.display ds, mime := selectMime env.supported,
          inactive := false }) := by
  refine ⟨(startCapture_noMix_counters env s h).1,
    (startCapture_noMix_counters env s h).2, ?_⟩
  intro ds a l h1 hV h2
  exact startCapture_noMix_stream env s ds a l h h1 hV h2

/-- C8 witness: microphone failure on a successful display capture. -/
theorem no_audio_source_identity_passthrough_witness :
    (startCapture envMicFail (initState true)).ctxCreated
      = (initState true).ctxCreated ∧
    (startCapture envMicFail (initState true)).nodesCreated
      = (initState true).nodesCreated ∧
    (startCapture envMicFail (initState true)).recorder = some
      { stream := MediaStream.display ds0,
        mime := selectMime envMicFail.supported, inactive := false } :=
  ⟨(no_audio_source_identity_passthrough envMicFail (initState true)
      (Or.inr ⟨"NotAllowedError", rfl⟩)).1,
   (no_audio_source_identity_passthrough envMicFail (initState true)
      (Or.inr ⟨"NotAllowedError", rfl⟩)).2.1,
   (no_audio_source_identity_passthrough envMicFail (initState true)
      (Or.inr ⟨"NotAllowedError", rfl⟩)).2.2 ds0 1 [] rfl rfl rfl⟩

theorem captureSnapshot_elapsed_le (e : SnapEnv) :
    (captureSnapshot e).elapsed ≤ SNAP_TIMEOUT := by
  obtain ⟨pm, ra, ca, dk, w, h, fd⟩ := e
  cases pm <;> rcases ra with _ | t <;> cases ca <;> cases dk <;>
    simp_all [captureSnapshot, SNAP_TIMEOUT] <;>
    split <;> simp_all <;> omega

/-- C6: snapshot capture never throws — every outcome is a defined
Option value: a missing 2d context, a drawing failure (e.g. the stream
already ended), or stream readiness never being signaled (or only at
or after the bound) all make it resolve to `none`; the readiness wait
never exceeds the ~1 s timeout, and in the unready cases the capture
resolves to `none` exactly at the bound instead of suspending
indefinitely. -/
theorem captureSnapshot_failure_yields_null (e : SnapEnv) :
    (captureSnapshot e).elapsed ≤ SNAP_TIMEOUT ∧
    (e.ctxAvailable = false → (captureSnapshot e).result = none) ∧
    (e.drawOk = false → (captureSnapshot e).result = none) ∧
    (e.previewMatches = false → e.readyAt = none →
      (captureSnapshot e).result = none ∧
      (captureSnapshot e).elapsed = SNAP_TIMEOUT) ∧
    (∀ t : Nat, e.previewMatches = false → e.readyAt = some t →
      SNAP_TIMEOUT ≤ t →
      (captureSnapshot e).result = none ∧
      (captureSnapshot e).elapsed = SNAP_TIMEOUT) := by
  refine ⟨captureSnapshot_elapsed_le e, ?_, ?_, ?_, ?_⟩
  · intro hca
    obtain ⟨pm, ra, ca, dk, w, h, fd⟩ := e
    dsimp only at hca
    subst hca
    cases pm <;> rcases ra with _ | t <;>
      simp_all [captureSnapshot] <;> split <;> simp
  · intro hdk
    obtain ⟨pm, ra, ca, dk, w, h, fd⟩ := e
    dsimp only at hdk
    subst hdk
    cases pm <;> rcases ra with _ | t <;> cases ca <;>
      simp_all [captureSnapshot] <;> split <;> simp
  · intro hpm hra
    obtain ⟨pm, ra, ca, dk, w, h, fd⟩ := e
    dsimp only at hpm hra
    subst hpm
    subst hra
    simp [captureSnapshot]
  · intro t hpm hra hle
    obtain ⟨pm, ra, ca, dk, w, h, fd⟩ := e
    dsimp only at hpm hra
    subst hpm
    subst hra
    have hlt : ¬ t < SNAP_TIMEOUT := by omega
    simp [captureSnapshot, hlt]

/-- C6 witness: an unready stream with no bound preview resolves to
null at the timeout bound. -/
theorem captureSnapshot_failure_yields_null_witness :
    (captureSnapshot snapLeakEnv).result = none ∧
    (captureSnapshot snapLeakEnv).elapsed = SNAP_TIMEOUT :=
  (captureSnapshot_failure_yields_null snapLeakEnv).2.2.2.1 rfl rfl

/-- C7 (code bug): when no preview element is bound to the stream and
readiness is never signaled, a temporary video element is created and
the catch path returns `none` WITHOUT detaching or removing it — the
teardown of part_001 lines 262-266 runs only after a successful draw,
so on every failure path the temporary surface survives the call,
contradicting the claim that it is torn down whether or not the
capture succeeded. -/
theorem captureSnapshot_temp_element_leak :
    (captureSnapshot snapLeakEnv).tempCreated = true ∧
    (captureSnapshot snapLeakEnv).tempDetached = false ∧
    (captureSnapshot snapLeakEnv).result = none := by
  refine ⟨by decide, by decide, by decide⟩

/-- C9 counterexample: a display-capture failure whose message is the
lowercase "permission denied" leaves the status IDLE but the surfaced
error is the raw message itself, not the CaptureDenied message: the
categorisation heuristic matches only the capitalised
"Permission denied", so the claimed input is not categorised as
CaptureDenied. -/
theorem lowercase_permission_denied_uncategorized :
    (startCapture envDisplayFail (initState true)).status = RecorderStatus.IDLE ∧
    (startCapture envDisplayFail (initState true)).error
      = some "permission denied" ∧
    classifyError "permission denied" ≠ captureDeniedMsg := by
  refine ⟨by decide, by decide, by decide⟩

/-- C9 (amended): the CaptureDenied heuristic is case-sensitive — for
every display-capture failure whose message contains the exact
substring "Permission denied" (as browsers emit it) and none of the
policy markers, the status remains IDLE and the surfaced message is
the CaptureDenied message; a lowercase "permission denied" message is
surfaced verbatim instead. -/
theorem capture_denied_case_sensitive (env : CaptureEnv) (s : RecorderState)
    (msg : String)
    (hIdle : s.status = RecorderStatus.IDLE)
    (hDisp : env.displayResult = Except.error msg)
    (h1 : strIncludes msg "Permission denied" = true)
    (h2 : strIncludes msg "display-capture" = false)
    (h3 : strIncludes msg "permissions policy" = false) :
    (startCapture env s).status = RecorderStatus.IDLE ∧
    (startCapture env s).error = some captureDeniedMsg := by
  rw [startCapture_displayFail env s msg hDisp]
  constructor
  · rw [handleCaptureError_status]
    exact hIdle
  · have hne : msg ≠ "" := by
      intro hmsg
      subst hmsg
      exact absurd h1 (by decide)
    unfold handleCaptureError
    dsimp only
    rw [if_neg hne]
    simp [classifyError, h1, h2, h3]

/-- C9 witness: the amended categorisation at the browser-style
message. -/
theorem capture_denied_case_sensitive_witness :
    (startCapture envDenied (initState true)).status = RecorderStatus.IDLE ∧
    (startCapture envDenied (initState true)).error = some captureDeniedMsg :=
  capture_denied_case_sensitive envDenied (initState true) "Permission denied"
    rfl rfl (by decide) (by decide) (by decide)

theorem cleanupResources_recorded (s : RecorderState) :
    (cleanupResources s).recorded = s.recorded := by
  unfold cleanupResources
  dsimp only
  split <;> rfl

theorem handleStop_recorded (snap : SnapEnv) (now : Nat)
    (r : MediaRecorderHandle) (s : RecorderState) :
    (handleStop snap now r s).recorded = some
      { payload := s.chunks.flatten, mime := r.mime,
        duration := (now - s.startTime) / 1000 } := by
  unfold handleStop
  dsimp only
  split <;> simp [cleanupResources_recorded]

theorem feedChunks_chunks (emitted : List (List Nat)) (s : RecorderState) :
    feedChunks s emitted
      = { s with chunks :=
            s.chunks ++ emitted.filter (fun c => decide (0 < c.length)) } := by
  induction emitted generalizing s with
  | nil => simp [feedChunks]
  | cons c cs ih =>
      unfold feedChunks at ih ⊢
      simp only [List.foldl_cons]
      by_cases hc : 0 < c.length
      · rw [show onDataAvailable s c = { s with chunks := s.chunks ++ [c] } from
          by simp [onDataAvailable, hc]]
        rw [ih]
        simp [hc]
      · rw [show onDataAvailable s c = s from by simp [onDataAvailable, hc]]
        rw [ih]
        simp [hc]

/-- C10: for every sequence of encoder data events, the artifact stored
at stop has as payload the concatenation, in emission order, of
exactly the chunks of positive size — zero-size chunks are silently
discarded by the data handler and never contribute — under the
selected MIME type. -/
theorem artifact_payload_nonempty_chunks (s : RecorderState)
    (emitted : List (List Nat)) (snap : SnapEnv) (now : Nat)
    (r : MediaRecorderHandle)
    (hc : s.chunks = []) (hr : s.recorder = some r) (hi : r.inactive = false) :
    ∃ art : Artifact,
      (stopRecording snap now (feedChunks s emitted)).recorded = some art ∧
      art.payload = (emitted.filter (fun c => decide (0 < c.length))).flatten ∧
      art.mime = r.mime := by
  rw [feedChunks_chunks]
  have hr2 : ({ s with chunks :=
      s.chunks ++ emitted.filter (fun c => decide (0 < c.length)) }
        : RecorderState).recorder = some r := hr
  rw [stopRecording_active snap now _ r hr2 hi]
  rw [handleStop_recorded]
  refine ⟨_, rfl, ?_, rfl⟩
  simp [hc]

/-- C10 witness: a concrete event sequence with an interleaved empty
chunk. -/
theorem artifact_payload_nonempty_chunks_witness :
    ∃ art : Artifact,
      (stopRecording snap0 0 (feedChunks s10 [[1, 2], [], [3]])).recorded
        = some art ∧
      art.payload
        = (([[1, 2], [], [3]] : List (List Nat)).filter
            (fun c => decide (0 < c.length))).flatten ∧
      art.mime = r10.mime :=
  artifact_payload_nonempty_chunks s10 [[1, 2], [], [3]] snap0 0 r10 rfl rfl rfl
